import Mathlib

/-!
Verification of the Automated Candidate Screening Workflow repository.

The Python sources are shallowly embedded: each script's state-changing
functions become explicit state-passing Lean functions, strings stay
strings, JSON values become an inductive type, and operations that may
raise Python exceptions return `Except Unit _`.
-/

namespace Screening

/-- Boolean prefix test on character lists (Python `str.startswith` on the
character level; used to model the substring operator `in`). -/
def isPrefixL : List Char → List Char → Bool
  | [], _ => true
  | _ :: _, [] => false
  | a :: as, b :: bs => a == b && isPrefixL as bs

/-- Boolean substring-occurrence test on character lists: Python's
`k in text` for strings (true when `k` occurs contiguously in `text`). -/
def occursInAux (k : List Char) : List Char → Bool
  | [] => k.isEmpty
  | c :: cs => isPrefixL k (c :: cs) || occursInAux k cs

/-- Python `k in text` on strings. -/
def occursIn (k text : String) : Bool :=
  occursInAux k.toList text.toList

/-- Modelled from the spec: the keyword screener
(`services/keyword_screener.py`, not part of the files shown) is described
as a "substring/set match of résumé text against a required-keyword list"
and "a direct substring/set-intersection check against a fixed word list".
A keyword from the required list is matched exactly when it occurs in the
résumé/application text. -/
def screenKeywords (required : List String) (text : String) : List String :=
  required.filter (fun k => occursIn k text)

/-- The match count the screener reports: the number of matched keywords. -/
def matchCount (required : List String) (text : String) : Nat :=
  (screenKeywords required text).length

/-- All initial segments of a character list (spec side of C2). -/
def initsL : List Char → List (List Char)
  | [] => [[]]
  | c :: cs => [] :: (initsL cs).map (fun l => c :: l)

/-- All final segments of a character list (spec side of C2). -/
def tailsL : List Char → List (List Char)
  | [] => [[]]
  | c :: cs => (c :: cs) :: tailsL cs

/-- All contiguous substrings of a character list (spec side of C2). -/
def substrsOf (t : List Char) : List (List Char) :=
  (tailsL t).flatMap initsL

/-- Spec-side reference screener for claim C2, written from the claim's own
words: the intersection of the keyword list with the substrings of the
text, keeping the keyword list's order. -/
def specScreen (required : List String) (text : String) : List String :=
  required.filter (fun k => decide (k.toList ∈ substrsOf text.toList))

end Screening


namespace ValidateProject

/-- One entry of `ProjectValidator.validation_results`
(`validate_project.py`, `log_result`): the dict
`{test, status, message, details, timestamp}` with string fields. -/
structure VEntry where
  test : String
  status : String
  message : String
  details : String
  timestamp : String
deriving DecidableEq

/-- The mutable state of `ProjectValidator`: `validation_results`,
`errors`, `warnings`. -/
structure VState where
  validation_results : List VEntry
  errors : List String
  warnings : List String
deriving DecidableEq

/-- `ProjectValidator.__init__`: all three lists start empty. -/
def initState : VState := ⟨[], [], []⟩

/-- The icon dictionary lookup in `log_result`:
`{"PASS": "✅", "FAIL": "❌", "WARN": "⚠️"}.get(status, "❓")`. -/
def statusIcon (status : String) : String :=
  if status == "PASS" then "✅"
  else if status == "FAIL" then "❌"
  else if status == "WARN" then "⚠️"
  else "❓"

/-- `ProjectValidator.log_result`: appends one entry to
`validation_results`, prints one line `f"{icon} {test}: {message}"`, and
appends `f"{test}: {message}"` to `errors` when the status is FAIL and to
`warnings` when it is WARN. Returns the new state and the printed lines. -/
def log_result (st : VState) (test status message details timestamp : String) :
    VState × List String :=
  let entry : VEntry := ⟨test, status, message, details, timestamp⟩
  let st₁ : VState := { st with validation_results := st.validation_results ++ [entry] }
  let line := statusIcon status ++ " " ++ test ++ ": " ++ message
  let st₂ : VState :=
    if status == "FAIL" then { st₁ with errors := st₁.errors ++ [test ++ ": " ++ message] }
    else if status == "WARN" then { st₁ with warnings := st₁.warnings ++ [test ++ ": " ++ message] }
    else st₁
  (st₂, [line])

/-- Number of entries with a given status among the logged results. -/
def countStatus (s : String) (l : List VEntry) : Nat :=
  (l.filter (fun e => e.status == s)).length

/-- The bookkeeping invariant of `ProjectValidator` (claim C9). -/
def inv (st : VState) : Prop :=
  st.errors.length = countStatus "FAIL" st.validation_results ∧
  st.warnings.length = countStatus "WARN" st.validation_results

/-- The status literals passed to `log_result` at its call sites in
`validate_project.py`; every call site passes one of these three. -/
inductive CStatus
  | pass
  | fail
  | warn
deriving DecidableEq

def CStatus.toStr : CStatus → String
  | .pass => "PASS"
  | .fail => "FAIL"
  | .warn => "WARN"

/-- The result of `subprocess.run([...run_tests.py], timeout=60)` inside
`validate_test_suite`: exit 0, nonzero exit, `TimeoutExpired`, or another
exception while launching. -/
inductive TestRunOutcome
  | ok
  | nonzero (stdout : String)
  | timeout
  | launchError (msg : String)
deriving DecidableEq

def TestRunOutcome.failed : TestRunOutcome → Bool
  | .ok => false
  | _ => true

/-- Environment seen by `validate_test_suite`: whether `run_tests.py`
exists, how many `tests/test_*.py` files there are, and what a run of the
test subprocess would do. -/
structure TSEnv where
  runnerExists : Bool
  testFiles : Nat
  outcome : TestRunOutcome

/-- `ProjectValidator.validate_test_suite`. Returns the new state, the
boolean the check returns, and the number of times the test subprocess was
launched. -/
def validate_test_suite (st : VState) (env : TSEnv) (ts : String) :
    VState × Bool × Nat :=
  if !env.runnerExists then
    ((log_result st "Test Suite" "FAIL" "run_tests.py not found" "" ts).1, false, 0)
  else if env.testFiles = 0 then
    ((log_result st "Test Suite" "WARN" "No test files found" "" ts).1, false, 0)
  else
    let st₁ := (log_result st "Test Suite" "PASS"
      ("Found " ++ toString env.testFiles ++ " test files") "" ts).1
    match env.outcome with
    | .ok =>
        ((log_result st₁ "Test Execution" "PASS" "All tests passed" "" ts).1, true, 1)
    | .nonzero out =>
        ((log_result st₁ "Test Execution" "WARN" ("Some tests failed: " ++ out) "" ts).1,
          false, 1)
    | .timeout =>
        ((log_result st₁ "Test Execution" "WARN" "Tests timed out after 60 seconds" "" ts).1,
          false, 1)
    | .launchError m =>
        ((log_result st₁ "Test Execution" "WARN" ("Could not run tests: " ++ m) "" ts).1,
          false, 1)

/-- The status-string computation at the end of
`run_comprehensive_validation`. The Python comparisons are on a float
percentage; the model uses exact rationals, which agree at every reachable
value. -/
def overallStatus (success_rate : ℚ) (numErrors : Nat) : String :=
  if success_rate ≥ 90 ∧ numErrors = 0 then "EXCELLENT"
  else if success_rate ≥ 80 ∧ numErrors ≤ 2 then "GOOD"
  else if success_rate ≥ 60 then "NEEDS_IMPROVEMENT"
  else "CRITICAL_ISSUES"

/-- The loop of `run_comprehensive_validation`: run each check once in
order, threading the validator state and counting the checks that return
`True`. -/
def runChecks (st : VState) (checks : List (VState → VState × Bool)) :
    VState × Nat :=
  checks.foldl
    (fun acc f =>
      let r := f acc.1
      (r.1, acc.2 + if r.2 then 1 else 0))
    (st, 0)

/-- The report dict written by `run_comprehensive_validation` to
`validation_report.json`. -/
structure VPReport where
  validation_timestamp : String
  overall_status : String
  success_rate : ℚ
  passed_tests : Nat
  total_tests : Nat
  errors : List String
  warnings : List String
  detailed_results : List VEntry

/-- The keys of the report dict literal in `run_comprehensive_validation`. -/
def vpReportKeys : List String :=
  ["validation_timestamp", "overall_status", "success_rate", "passed_tests",
   "total_tests", "errors", "warnings", "detailed_results"]

/-- `ProjectValidator.run_comprehensive_validation`: runs every check once,
computes the success rate and overall status, and returns the report
together with the name of the file it is written to. -/
def run_comprehensive_validation (timestamp : String)
    (checks : List (VState → VState × Bool)) : VPReport × String :=
  let res := runChecks initState checks
  let passed := res.2
  let total := checks.length
  let rate : ℚ := (passed : ℚ) / (total : ℚ) * 100
  ⟨⟨timestamp, overallStatus rate res.1.errors.length, rate, passed, total,
    res.1.errors, res.1.warnings, res.1.validation_results⟩,
   "validation_report.json"⟩

end ValidateProject

namespace N8n

/-- JSON values as produced by `json.load` (numbers collapsed to `Int`;
no claim depends on numeric contents). Objects are association lists. -/
inductive Json where
  | null
  | bool (b : Bool)
  | num (n : Int)
  | str (s : String)
  | arr (elems : List Json)
  | obj (fields : List (String × Json))

/-- Python `data.get(k, d)`: raises (`AttributeError`) unless `data` is a
dict, otherwise returns the value at `k` or the default. -/
def dictGet (j : Json) (k : String) (d : Json) : Except Unit Json :=
  match j with
  | .obj kvs => .ok ((kvs.lookup k).getD d)
  | _ => .error ()

/-- Python `len(v)`: defined for strings, lists and dicts, raises
(`TypeError`) otherwise. -/
def pyLen : Json → Except Unit Nat
  | .str s => .ok s.length
  | .arr xs => .ok xs.length
  | .obj kvs => .ok kvs.length
  | _ => .error ()

/-- Python `for x in v`: lists yield their elements, strings their
one-character strings, dicts their keys; other values raise
(`TypeError`). -/
def pyIter : Json → Except Unit (List Json)
  | .arr xs => .ok xs
  | .str s => .ok (s.toList.map (fun c => Json.str (String.singleton c)))
  | .obj kvs => .ok (kvs.map (fun kv => Json.str kv.1))
  | _ => .error ()

/-- Whether a value may be used as a dict key (`node_types[node_type]`):
lists and dicts are unhashable and raise `TypeError`. -/
def hashable : Json → Bool
  | .arr _ => false
  | .obj _ => false
  | _ => true

/-- The state of the file `n8n_workflow_export.json` as seen by the
validators: absent (`open` raises), present but not JSON
(`json.JSONDecodeError`), or parsed to a JSON value. -/
inductive FileState where
  | missing
  | invalid
  | valid (j : Json)

/-- The `try:` body of `validate_n8n_workflow` in `validate_n8n.py` after
`json.load` succeeded: `data.get('name', ...)`; `len` of the
`nodes`/`connections`/`tags` defaults; iterate `data.get('nodes', [])`,
take `node.get('type', 'unknown')` of each node and use it as a dict key.
The remaining statements (the node-type counts printout and the
required-type membership printout) cannot raise. -/
def n8nTryBody (j : Json) : Except Unit Unit := do
  let _ ← dictGet j "name" (Json.str "Unknown")
  let nodesJ ← dictGet j "nodes" (Json.arr [])
  let _ ← pyLen nodesJ
  let connsJ ← dictGet j "connections" (Json.obj [])
  let _ ← pyLen connsJ
  let tagsJ ← dictGet j "tags" (Json.arr [])
  let _ ← pyLen tagsJ
  let nodesJ₂ ← dictGet j "nodes" (Json.arr [])
  let nodes ← pyIter nodesJ₂
  let types ← nodes.mapM (fun nd => dictGet nd "type" (Json.str "unknown"))
  if types.all hashable then pure () else Except.error ()

/-- `validate_n8n_workflow` (`validate_n8n.py`): the companion-file
existence loop only prints; the function returns `True` exactly when the
`try:` block finishes, and `False` from the two `except` clauses. -/
def validate_n8n_workflow (_companionExists : String → Bool)
    (file : FileState) : Bool :=
  match file with
  | .missing => false
  | .invalid => false
  | .valid j =>
      match n8nTryBody j with
      | .ok _ => true
      | .error _ => false

/-- Whether the export file was opened and parsed as valid JSON without an
exception (the condition named by claim C7). -/
def parses : FileState → Bool
  | .valid _ => true
  | _ => false

/-- The required node-type list shared by `validate_n8n.py` and
`final_validation.py`. -/
def required_types : List String :=
  ["n8n-nodes-base.emailReadImap", "n8n-nodes-base.googleSheets",
   "n8n-nodes-base.emailSend", "n8n-nodes-base.code", "n8n-nodes-base.if"]

/-- `final_validation.py`, `validate_n8n_implementation`:
`node_types = [node.get('type', '') for node in nodes]` (each node a
parsed JSON object, given as its field list). -/
def nodeTypeFields (nodes : List (List (String × Json))) : List Json :=
  nodes.map (fun kvs => (kvs.lookup "type").getD (Json.str ""))

/-- Python `t in l` for a string `t` and a list of parsed JSON values:
`in` compares with `==`, and a Python string is `==` only to the equal
string. -/
def strMem (t : String) : List Json → Bool
  | [] => false
  | Json.str s :: rest => s == t || strMem t rest
  | _ :: rest => strMem t rest

/-- `missing_types = [t for t in required_types if t not in node_types]`. -/
def missing_types (nodes : List (List (String × Json))) : List String :=
  required_types.filter (fun t => !(strMem t (nodeTypeFields nodes)))

/-- `results['node_types']`: `True` exactly when `missing_types` is empty. -/
def node_types_ok (nodes : List (List (String × Json))) : Bool :=
  (missing_types nodes).isEmpty

/-- `validate_n8n.py`: the keys of the `node_types` count dict,
`node.get('type', 'unknown')` for each node. -/
def scriptTypeKeys (nodes : List (List (String × Json))) : List Json :=
  nodes.map (fun kvs => (kvs.lookup "type").getD (Json.str "unknown"))

end N8n

namespace FinalValidation

/-- The `results` dict of `validate_python_implementation`
(`final_validation.py`); absent keys are read back with default `False`,
so they are modelled as the stored booleans. -/
structure PythonResults where
  imports : Bool
  services : Bool
  tests : Bool
  workflow_test : Bool
  test_count : Nat
deriving DecidableEq

/-- The `results` dict of `validate_n8n_implementation`. -/
structure N8nResults where
  files_present : Bool
  json_valid : Bool
  node_types : Bool
  node_count : Nat
  connection_count : Nat
deriving DecidableEq

/-- The `results` dict of `validate_documentation`. -/
structure DocResults where
  docs_complete : Bool
  total_words : Nat
deriving DecidableEq

/-- The `results` dict of `validate_project_structure`. -/
structure StructureResults where
  structure_complete : Bool
deriving DecidableEq

/-- Python booleans under `sum`/`+`: `True` counts 1, `False` counts 0. -/
def b2n (b : Bool) : Nat := if b then 1 else 0

def python_score (r : PythonResults) : Nat :=
  b2n r.imports + b2n r.services + b2n r.tests + b2n r.workflow_test

def n8n_score (r : N8nResults) : Nat :=
  b2n r.files_present + b2n r.json_valid + b2n r.node_types

def doc_score (r : DocResults) : Nat := b2n r.docs_complete

def structure_score (r : StructureResults) : Nat := b2n r.structure_complete

def total_score (p : PythonResults) (n : N8nResults) (d : DocResults)
    (s : StructureResults) : Nat :=
  python_score p + n8n_score n + doc_score d + structure_score s

def max_score : Nat := 9

/-- The status chain at the end of `generate_final_report`. The Python
float thresholds `max_score * 0.8` and `max_score * 0.6` are modelled as
exact rationals; on the integer scores 0..9 the comparisons agree. -/
def finalStatus (total : Nat) : String :=
  if total == max_score then "🎉 EXCELLENT"
  else if (total : ℚ) ≥ (max_score : ℚ) * (8 / 10) then "👍 GOOD"
  else if (total : ℚ) ≥ (max_score : ℚ) * (6 / 10) then "⚠️ FAIR"
  else "❌ NEEDS WORK"

/-- The report dict returned by `generate_final_report` and written to
`final_validation_report.json`. -/
structure FinalReport where
  overall_score : Nat
  max_score : Nat
  percentage : ℚ
  status : String
  python_results : PythonResults
  n8n_results : N8nResults
  doc_results : DocResults
  structure_results : StructureResults

/-- The keys of the report dict literal at the end of
`generate_final_report`. -/
def finalReportKeys : List String :=
  ["overall_score", "max_score", "percentage", "status",
   "python_results", "n8n_results", "doc_results", "structure_results"]

def generate_final_report (p : PythonResults) (n : N8nResults)
    (d : DocResults) (s : StructureResults) : FinalReport :=
  let total := total_score p n d s
  ⟨total, max_score, (total : ℚ) / (max_score : ℚ) * 100, finalStatus total,
   p, n, d, s⟩

/-- `__main__` of `final_validation.py`: the report produced by
`generate_final_report` is dumped to `final_validation_report.json`. -/
def finalValidationMain (p : PythonResults) (n : N8nResults)
    (d : DocResults) (s : StructureResults) : FinalReport × String :=
  (generate_final_report p n d s, "final_validation_report.json")

end FinalValidation

namespace MainEntry

/-- What `orchestrator.run_continuous()` would do if started: return
normally, be interrupted (`KeyboardInterrupt`, caught and treated as a
clean stop), or raise some other exception. -/
inductive ContOutcome where
  | normal
  | keyboardInterrupt
  | error (msg : String)
deriving DecidableEq

/-- Observable outcome of `run_workflow` (`main.py`): the log lines it
emits, whether `run_continuous` was started, and the returned boolean. -/
structure WorkflowRun where
  logs : List String
  ranContinuous : Bool
  success : Bool
deriving DecidableEq

/-- The per-service log line of the loop over
`connection_results.items()`. -/
def connLog (p : String × Bool) : String :=
  if p.2 then "✓ " ++ p.1 ++ " connection successful"
  else "✗ " ++ p.1 ++ " connection failed"

/-- `run_workflow`: log one line per service, and if any connection test
failed, log the failure summary and return `False` without starting
`run_continuous`; otherwise start it and return `True` unless it raised an
exception other than `KeyboardInterrupt`. -/
def run_workflow (conns : List (String × Bool)) (co : ContOutcome) :
    WorkflowRun :=
  let logs := conns.map connLog
  if conns.all (fun p => p.2) then
    let logs := logs ++ ["All connections successful. Starting workflow..."]
    match co with
    | .normal => ⟨logs, true, true⟩
    | .keyboardInterrupt => ⟨logs ++ ["Workflow stopped by user"], true, true⟩
    | .error m => ⟨logs ++ ["Workflow error: " ++ m], true, false⟩
  else
    ⟨logs ++ ["Some service connections failed. Please check configuration."],
     false, false⟩

/-- The `run` command of `main`: `sys.exit(0 if success else 1)`. -/
def mainRunExit (conns : List (String × Bool)) (co : ContOutcome) : Nat :=
  if (run_workflow conns co).success then 0 else 1

end MainEntry
namespace Screening

theorem mem_initsL {x l : List Char} : x ∈ initsL l ↔ isPrefixL x l = true := by
  induction l generalizing x with
  | nil =>
    cases x with
    | nil => simp [initsL, isPrefixL]
    | cons a as => simp [initsL, isPrefixL]
  | cons c cs ih =>
    cases x with
    | nil => simp [initsL, isPrefixL]
    | cons a as =>
      simp only [initsL, List.mem_cons, List.mem_map]
      constructor
      · rintro (h | ⟨l', hl', heq⟩)
        · exact absurd h (by simp)
        · obtain ⟨rfl, rfl⟩ := List.cons_eq_cons.mp heq
          simp [isPrefixL, ih.mp hl']
      · intro h
        simp only [isPrefixL, Bool.and_eq_true, beq_iff_eq] at h
        exact Or.inr ⟨as, ih.mpr h.2, by rw [h.1]⟩

theorem mem_substrsOf {x l : List Char} :
    x ∈ substrsOf l ↔ occursInAux x l = true := by
  induction l with
  | nil =>
    cases x <;> simp [substrsOf, tailsL, initsL, occursInAux]
  | cons c cs ih =>
    have hsplit : substrsOf (c :: cs) = initsL (c :: cs) ++ substrsOf cs := by
      simp [substrsOf, tailsL]
    rw [hsplit, List.mem_append, mem_initsL, ih]
    simp [occursInAux]

theorem screen_eq_spec (required : List String) (text : String) :
    screenKeywords required text = specScreen required text := by
  unfold screenKeywords specScreen
  apply List.filter_congr
  intro k _
  rw [occursIn, Bool.eq_iff_iff, decide_eq_true_eq]
  exact mem_substrsOf.symm

/-- C1: The keyword screening function is deterministic: two runs of the
screener on the same required-keyword list and the same email body report
the same matched-keyword set and the same match count. -/
theorem screener_deterministic (required : List String) (text : String)
    (run₁ run₂ : List String)
    (h₁ : run₁ = screenKeywords required text)
    (h₂ : run₂ = screenKeywords required text) :
    run₁ = run₂ ∧ run₁.length = run₂.length := by
  subst h₁; subst h₂; exact ⟨rfl, rfl⟩

theorem screener_deterministic_witness :
    ["Python"] = screenKeywords ["Python", "GenAI"] "I know Python well" ∧
    ["Python"].length = ["Python"].length :=
  screener_deterministic ["Python", "GenAI"] "I know Python well"
    ["Python"] ["Python"] (by decide) (by decide)

/-- C2: The screener's result equals a direct substring/set-intersection
check: a keyword is matched exactly when it occurs contiguously in the
text, and the result is the intersection of the required-keyword list with
the substrings of the text. -/
theorem screener_is_substring_intersection (required : List String)
    (text : String) :
    screenKeywords required text = specScreen required text ∧
    ∀ k, k ∈ screenKeywords required text ↔
      k ∈ required ∧ occursIn k text = true := by
  refine ⟨screen_eq_spec required text, fun k => ?_⟩
  simp [screenKeywords, List.mem_filter]

end Screening
namespace ValidateProject

theorem countStatus_append (s : String) (l : List VEntry) (e : VEntry) :
    countStatus s (l ++ [e]) =
      countStatus s l + (if e.status == s then 1 else 0) := by
  simp only [countStatus, List.filter_append, List.length_append]
  cases h : e.status == s <;> simp [h]

theorem log_result_state (st : VState) (t s m d ts : String) :
    (log_result st t s m d ts).1.validation_results =
        st.validation_results ++ [⟨t, s, m, d, ts⟩] ∧
    (log_result st t s m d ts).1.errors =
        st.errors ++ (if s = "FAIL" then [t ++ ": " ++ m] else []) ∧
    (log_result st t s m d ts).1.warnings =
        st.warnings ++ (if s = "WARN" then [t ++ ": " ++ m] else []) := by
  by_cases hf : s = "FAIL"
  · subst hf; simp [log_result]
  · by_cases hw : s = "WARN"
    · subst hw; simp [log_result]
    · simp [log_result, hf, hw]

/-- C9: `log_result` preserves the invariant that the number of errors
equals the number of FAIL entries and the number of warnings the number of
WARN entries; each call appends exactly one entry to
`validation_results`, and a status other than PASS, FAIL or WARN is
recorded in the results but added to neither `errors` nor `warnings`. -/
theorem log_result_bookkeeping (st : VState) (t s m d ts : String)
    (h : inv st) :
    inv (log_result st t s m d ts).1 ∧
    (log_result st t s m d ts).1.validation_results =
      st.validation_results ++ [⟨t, s, m, d, ts⟩] ∧
    (s ≠ "PASS" → s ≠ "FAIL" → s ≠ "WARN" →
      (log_result st t s m d ts).1.errors = st.errors ∧
      (log_result st t s m d ts).1.warnings = st.warnings) := by
  obtain ⟨hstate, herr, hwarn⟩ := log_result_state st t s m d ts
  obtain ⟨he, hw⟩ := h
  refine ⟨⟨?_, ?_⟩, hstate, ?_⟩
  · rw [herr, hstate, countStatus_append, List.length_append, he]
    by_cases hf : s = "FAIL" <;> simp [hf]
  · rw [hwarn, hstate, countStatus_append, List.length_append, hw]
    by_cases hb : s = "WARN" <;> simp [hb]
  · intro _ h2 h3
    exact ⟨by rw [herr]; simp [h2], by rw [hwarn]; simp [h3]⟩

theorem log_result_bookkeeping_witness :
    inv (log_result initState "Python Version" "INFO" "checked" "" "t0").1 :=
  (log_result_bookkeeping initState "Python Version" "INFO" "checked" "" "t0"
    ⟨rfl, rfl⟩).1

/-- C8: `validate_test_suite` launches the test subprocess exactly once;
when the subprocess exits nonzero, times out after 60 seconds, or cannot
be launched, it records a single WARN result and returns `False` without
re-executing the tests. -/
theorem validate_test_suite_no_retry (st : VState) (env : TSEnv) (ts : String)
    (hr : env.runnerExists = true) (hf : env.testFiles ≠ 0)
    (hfail : env.outcome.failed = true) :
    (validate_test_suite st env ts).2.2 = 1 ∧
    (validate_test_suite st env ts).2.1 = false ∧
    countStatus "WARN" (validate_test_suite st env ts).1.validation_results =
      countStatus "WARN" st.validation_results + 1 ∧
    (validate_test_suite st env ts).1.warnings.length =
      st.warnings.length + 1 := by
  obtain ⟨re, tf, oc⟩ := env
  simp only at hr hf hfail
  subst hr
  have hts : ∀ s1 m1 s2 m2,
      countStatus "WARN" ((log_result (log_result st s1 "PASS" m1 "" ts).1
          s2 "WARN" m2 "" ts).1.validation_results) =
        countStatus "WARN" st.validation_results + 1 ∧
      (log_result (log_result st s1 "PASS" m1 "" ts).1
          s2 "WARN" m2 "" ts).1.warnings.length = st.warnings.length + 1 := by
    intro s1 m1 s2 m2
    obtain ⟨ha1, _, hw1⟩ := log_result_state st s1 "PASS" m1 "" ts
    obtain ⟨ha2, _, hw2⟩ :=
      log_result_state (log_result st s1 "PASS" m1 "" ts).1 s2 "WARN" m2 "" ts
    constructor
    · rw [ha2, ha1, countStatus_append, countStatus_append]
      simp
    · rw [hw2, hw1]
      simp
  cases oc with
  | ok => simp [TestRunOutcome.failed] at hfail
  | nonzero out =>
      refine ⟨?_, ?_, ?_, ?_⟩ <;>
        simp only [validate_test_suite, Bool.not_true, Bool.false_eq_true,
          if_false, hf, if_neg hf] <;>
        first
          | rfl
          | exact (hts _ _ _ _).1
          | exact (hts _ _ _ _).2
  | timeout =>
      refine ⟨?_, ?_, ?_, ?_⟩ <;>
        simp only [validate_test_suite, Bool.not_true, Bool.false_eq_true,
          if_false, hf, if_neg hf] <;>
        first
          | rfl
          | exact (hts _ _ _ _).1
          | exact (hts _ _ _ _).2
  | launchError msg =>
      refine ⟨?_, ?_, ?_, ?_⟩ <;>
        simp only [validate_test_suite, Bool.not_true, Bool.false_eq_true,
          if_false, hf, if_neg hf] <;>
        first
          | rfl
          | exact (hts _ _ _ _).1
          | exact (hts _ _ _ _).2

theorem validate_test_suite_no_retry_witness :
    (validate_test_suite initState ⟨true, 3, TestRunOutcome.timeout⟩ "t0").2.2 = 1 ∧
    (validate_test_suite initState ⟨true, 3, TestRunOutcome.timeout⟩ "t0").2.1 = false ∧
    countStatus "WARN"
        (validate_test_suite initState ⟨true, 3, TestRunOutcome.timeout⟩ "t0").1.validation_results =
      countStatus "WARN" initState.validation_results + 1 ∧
    (validate_test_suite initState ⟨true, 3, TestRunOutcome.timeout⟩ "t0").1.warnings.length =
      initState.warnings.length + 1 :=
  validate_test_suite_no_retry initState ⟨true, 3, TestRunOutcome.timeout⟩ "t0"
    rfl (by decide) rfl

end ValidateProject

/-- C3 (counterexample): the report dict that `final_validation.py` writes
to `final_validation_report.json` has no `errors` and no `warnings` entry,
so the claim that the written JSON report contains the errors and the
warnings fails for that file (here on an all-passing run). -/
theorem final_report_lacks_error_lists :
    ("errors" ∉ FinalValidation.finalReportKeys) ∧
    ("warnings" ∉ FinalValidation.finalReportKeys) ∧
    (FinalValidation.finalValidationMain ⟨true, true, true, true, 5⟩
        ⟨true, true, true, 3, 2⟩ ⟨true, 100⟩ ⟨true⟩).2 =
      "final_validation_report.json" := by
  refine ⟨by decide, by decide, rfl⟩

/-- C3 (amended): every check outcome handled by `log_result` prints
exactly one status line and its status is PASS, FAIL or WARN; after all
checks complete, `validate_project.py` writes `validation_report.json`
containing the overall status, the errors, the warnings and the detailed
per-check results, while `final_validation.py` writes
`final_validation_report.json` containing the overall status and the
detailed per-section results (but no separate errors/warnings lists). -/
theorem validation_reporting :
    (∀ (st : ValidateProject.VState) (t : String)
        (c : ValidateProject.CStatus) (m d ts : String),
      (ValidateProject.log_result st t c.toStr m d ts).2.length = 1 ∧
      c.toStr ∈ (["PASS", "FAIL", "WARN"] : List String)) ∧
    (∀ (timestamp : String)
        (checks : List (ValidateProject.VState → ValidateProject.VState × Bool)),
      (ValidateProject.run_comprehensive_validation timestamp checks).2 =
        "validation_report.json" ∧
      (ValidateProject.run_comprehensive_validation timestamp checks).1.overall_status =
        ValidateProject.overallStatus
          (((ValidateProject.runChecks ValidateProject.initState checks).2 : ℚ) /
              (checks.length : ℚ) * 100)
          (ValidateProject.runChecks ValidateProject.initState checks).1.errors.length ∧
      (ValidateProject.run_comprehensive_validation timestamp checks).1.errors =
        (ValidateProject.runChecks ValidateProject.initState checks).1.errors ∧
      (ValidateProject.run_comprehensive_validation timestamp checks).1.warnings =
        (ValidateProject.runChecks ValidateProject.initState checks).1.warnings ∧
      (ValidateProject.run_comprehensive_validation timestamp checks).1.detailed_results =
        (ValidateProject.runChecks ValidateProject.initState checks).1.validation_results ∧
      "overall_status" ∈ ValidateProject.vpReportKeys ∧
      "errors" ∈ ValidateProject.vpReportKeys ∧
      "warnings" ∈ ValidateProject.vpReportKeys ∧
      "detailed_results" ∈ ValidateProject.vpReportKeys) ∧
    (∀ (p : FinalValidation.PythonResults) (n : FinalValidation.N8nResults)
        (d : FinalValidation.DocResults) (s : FinalValidation.StructureResults),
      (FinalValidation.finalValidationMain p n d s).2 =
        "final_validation_report.json" ∧
      (FinalValidation.finalValidationMain p n d s).1.status =
        FinalValidation.finalStatus (FinalValidation.total_score p n d s) ∧
      "status" ∈ FinalValidation.finalReportKeys ∧
      "python_results" ∈ FinalValidation.finalReportKeys ∧
      "n8n_results" ∈ FinalValidation.finalReportKeys ∧
      "doc_results" ∈ FinalValidation.finalReportKeys ∧
      "structure_results" ∈ FinalValidation.finalReportKeys) := by
  refine ⟨fun st t c m d ts => ⟨rfl, ?_⟩, fun timestamp checks =>
    ⟨rfl, rfl, rfl, rfl, rfl, by decide, by decide, by decide, by decide⟩,
    fun p n d s => ⟨rfl, rfl, by decide, by decide, by decide, by decide, by decide⟩⟩
  cases c <;> simp [ValidateProject.CStatus.toStr]

namespace FinalValidation

theorem finalStatus_cases (t : Nat) (h : t ≤ 9) :
    (finalStatus t = "🎉 EXCELLENT" ↔ t = 9) ∧
    (finalStatus t = "👍 GOOD" ↔ t = 8) ∧
    (finalStatus t = "⚠️ FAIR" ↔ t = 6 ∨ t = 7) ∧
    (finalStatus t = "❌ NEEDS WORK" ↔ t ≤ 5) := by
  interval_cases t <;> refine ⟨?_, ?_, ?_, ?_⟩ <;> norm_num [finalStatus, max_score] <;>
    decide

theorem b2n_le_one (b : Bool) : b2n b ≤ 1 := by
  cases b <;> simp [b2n]

theorem total_score_le (p : PythonResults) (n : N8nResults)
    (d : DocResults) (s : StructureResults) : total_score p n d s ≤ 9 := by
  have h1 := b2n_le_one p.imports
  have h2 := b2n_le_one p.services
  have h3 := b2n_le_one p.tests
  have h4 := b2n_le_one p.workflow_test
  have h5 := b2n_le_one n.files_present
  have h6 := b2n_le_one n.json_valid
  have h7 := b2n_le_one n.node_types
  have h8 := b2n_le_one d.docs_complete
  have h9 := b2n_le_one s.structure_complete
  simp only [total_score, python_score, n8n_score, doc_score, structure_score]
  omega

/-- C6: in the final validation report, `total_score` is the sum of the
Python score (0-4), the n8n score (0-3), the documentation score (0-1) and
the structure score (0-1), hence at most 9 = `max_score`; and the status
is EXCELLENT iff the total is 9, GOOD iff it is 8, FAIR iff it is 6 or 7,
and NEEDS WORK otherwise. -/
theorem final_report_score_status (p : PythonResults) (n : N8nResults)
    (d : DocResults) (s : StructureResults) :
    (generate_final_report p n d s).overall_score =
      python_score p + n8n_score n + doc_score d + structure_score s ∧
    (generate_final_report p n d s).overall_score ≤ 9 ∧
    (generate_final_report p n d s).max_score = 9 ∧
    ((generate_final_report p n d s).status = "🎉 EXCELLENT" ↔
      total_score p n d s = 9) ∧
    ((generate_final_report p n d s).status = "👍 GOOD" ↔
      total_score p n d s = 8) ∧
    ((generate_final_report p n d s).status = "⚠️ FAIR" ↔
      total_score p n d s = 6 ∨ total_score p n d s = 7) ∧
    ((generate_final_report p n d s).status = "❌ NEEDS WORK" ↔
      total_score p n d s ≤ 5) := by
  obtain ⟨hE, hG, hF, hN⟩ :=
    finalStatus_cases (total_score p n d s) (total_score_le p n d s)
  exact ⟨rfl, total_score_le p n d s, rfl, hE, hG, hF, hN⟩

end FinalValidation

namespace N8n

theorem strMem_iff {t : String} {l : List Json} :
    strMem t l = true ↔ Json.str t ∈ l := by
  induction l with
  | nil => simp [strMem]
  | cons x rest ih =>
      cases x with
      | str s =>
          simp only [strMem, Bool.or_eq_true, beq_iff_eq, ih, List.mem_cons]
          constructor
          · rintro (h | hm)
            · exact Or.inl (by rw [h])
            · exact Or.inr hm
          · rintro (heq | hm)
            · injection heq with h2
              exact Or.inl h2.symm
            · exact Or.inr hm
      | null => simp [strMem, ih]
      | bool b => simp [strMem, ih]
      | num n => simp [strMem, ih]
      | arr xs => simp [strMem, ih]
      | obj kvs => simp [strMem, ih]

theorem mem_typeFields {t : String} {d0 : Json} (hd : Json.str t ≠ d0)
    (nodes : List (List (String × Json))) :
    Json.str t ∈ nodes.map (fun kvs => (kvs.lookup "type").getD d0) ↔
      ∃ kvs ∈ nodes, kvs.lookup "type" = some (Json.str t) := by
  simp only [List.mem_map]
  constructor
  · rintro ⟨kvs, hmem, heq⟩
    cases hl : kvs.lookup "type" with
    | none =>
        rw [hl] at heq
        simp only [Option.getD_none] at heq
        exact absurd heq.symm hd
    | some v =>
        rw [hl] at heq
        simp only [Option.getD_some] at heq
        exact ⟨kvs, hmem, by rw [hl, heq]⟩
  · rintro ⟨kvs, hmem, hl⟩
    exact ⟨kvs, hmem, by rw [hl]; rfl⟩

/-- C5: the node-type check of the validators reports the required node
types as present exactly when every one of the five required types occurs
among the `type` fields of the export's nodes: `final_validation.py` sets
`results['node_types']` to `True` iff each required type is the `type`
field of some node, and `validate_n8n.py` prints a required type as
Present iff it is the `type` field of some node. -/
theorem required_node_types_iff (nodes : List (List (String × Json))) :
    (node_types_ok nodes = true ↔
      ∀ t ∈ required_types,
        ∃ kvs ∈ nodes, kvs.lookup "type" = some (Json.str t)) ∧
    (∀ t ∈ required_types,
      (strMem t (scriptTypeKeys nodes) = true ↔
        ∃ kvs ∈ nodes, kvs.lookup "type" = some (Json.str t))) := by
  have hne : ∀ t ∈ required_types,
      Json.str t ≠ Json.str "" ∧ Json.str t ≠ Json.str "unknown" := by
    intro t ht
    simp only [required_types, List.mem_cons, List.not_mem_nil, or_false] at ht
    rcases ht with rfl | rfl | rfl | rfl | rfl <;> exact ⟨by simp, by simp⟩
  have key : ∀ t ∈ required_types,
      (strMem t (nodeTypeFields nodes) = true ↔
        ∃ kvs ∈ nodes, kvs.lookup "type" = some (Json.str t)) := by
    intro t ht
    rw [strMem_iff]
    exact mem_typeFields (hne t ht).1 nodes
  have key₂ : ∀ t ∈ required_types,
      (strMem t (scriptTypeKeys nodes) = true ↔
        ∃ kvs ∈ nodes, kvs.lookup "type" = some (Json.str t)) := by
    intro t ht
    rw [strMem_iff]
    exact mem_typeFields (hne t ht).2 nodes
  refine ⟨?_, key₂⟩
  rw [node_types_ok, missing_types, List.isEmpty_iff, List.filter_eq_nil_iff]
  constructor
  · intro h t ht
    have h1 := h t ht
    rw [(key t ht).symm]
    revert h1
    cases strMem t (nodeTypeFields nodes) <;> simp
  · intro h t ht
    have h1 := (key t ht).mpr (h t ht)
    simp [h1]

/-- C7 (counterexample): a file holding the valid JSON text `[]` parses
without an exception, yet `validate_n8n_workflow` returns `False` (the
subsequent `data.get(...)` raises `AttributeError` on a list, caught by
the blanket `except`), so returning `True` is not equivalent to the file
parsing as valid JSON. -/
theorem validate_n8n_c7_counterexample :
    parses (FileState.valid (Json.arr [])) = true ∧
    validate_n8n_workflow (fun _ => true) (FileState.valid (Json.arr [])) = false ∧
    ¬ (validate_n8n_workflow (fun _ => true) (FileState.valid (Json.arr [])) = true ↔
        parses (FileState.valid (Json.arr [])) = true) := by
  refine ⟨rfl, rfl, fun h => ?_⟩
  exact Bool.noConfusion (h.mpr rfl)

/-- C7 (amended): `validate_n8n_workflow` returns `True` iff the export
file is opened, parsed as valid JSON, and the processing of the parsed
value inside the `try:` block raises no exception (top level a dict whose
`nodes`/`connections`/`tags` entries support `len`, each node a dict, each
node's `type` value hashable); the companion documentation files and the
presence of required node types never affect the returned value. -/
theorem validate_n8n_true_iff (ex : String → Bool) (f : FileState) :
    (validate_n8n_workflow ex f = true ↔
      ∃ j, f = FileState.valid j ∧ n8nTryBody j = Except.ok ()) ∧
    (∀ ex', validate_n8n_workflow ex f = validate_n8n_workflow ex' f) := by
  refine ⟨?_, fun ex' => by cases f <;> rfl⟩
  cases f with
  | missing => simp [validate_n8n_workflow]
  | invalid => simp [validate_n8n_workflow]
  | valid j =>
      simp only [validate_n8n_workflow]
      constructor
      · intro hv
        refine ⟨j, rfl, ?_⟩
        revert hv
        cases h : n8nTryBody j with
        | ok u => cases u; intro _; rfl
        | error e => intro hv; cases hv
      · rintro ⟨j', hj, hok⟩
        have hj' : j' = j := by injection hj with h; exact h.symm
        subst hj'
        rw [hok]

end N8n

namespace MainEntry

/-- C4: if at least one service's connection test fails, `run_workflow`
logs a "connection failed" line for each failing service and returns
`False` without starting the continuous loop, and the `run` command exits
with status 1; if all connection tests succeed, the continuous loop is
started. -/
theorem run_workflow_gate (conns : List (String × Bool)) (co : ContOutcome) :
    ((∃ p ∈ conns, p.2 = false) →
      (run_workflow conns co).ranContinuous = false ∧
      (run_workflow conns co).success = false ∧
      mainRunExit conns co = 1 ∧
      ∀ q ∈ conns, q.2 = false →
        ("✗ " ++ q.1 ++ " connection failed") ∈ (run_workflow conns co).logs) ∧
    ((∀ p ∈ conns, p.2 = true) → (run_workflow conns co).ranContinuous = true) := by
  by_cases hall : conns.all (fun p => p.2) = true
  · rw [List.all_eq_true] at hall
    constructor
    · rintro ⟨p, hp, hfalse⟩
      exact absurd (hall p hp) (by simp [hfalse])
    · intro _
      have hc : conns.all (fun p => p.2) = true := List.all_eq_true.mpr hall
      cases co <;> simp [run_workflow, hc]
  · have hcond : conns.all (fun p => p.2) = false := by
      cases h : conns.all (fun p => p.2)
      · rfl
      · exact absurd h hall
    constructor
    · intro _
      refine ⟨?_, ?_, ?_, ?_⟩
      · simp [run_workflow, hcond]
      · simp [run_workflow, hcond]
      · simp [mainRunExit, run_workflow, hcond]
      · intro q hq hq2
        simp only [run_workflow, hcond, Bool.false_eq_true, if_false,
          List.mem_append, List.mem_map]
        exact Or.inl ⟨q, hq, by simp [connLog, hq2]⟩
    · intro hforall
      exact absurd (List.all_eq_true.mpr hforall) hall

theorem run_workflow_gate_witness :
    (run_workflow [("email", false), ("sheets", true)] ContOutcome.normal).ranContinuous
        = false ∧
    ("✗ email connection failed") ∈
      (run_workflow [("email", false), ("sheets", true)] ContOutcome.normal).logs ∧
    mainRunExit [("email", false), ("sheets", true)] ContOutcome.normal = 1 := by
  have h := (run_workflow_gate [("email", false), ("sheets", true)]
      ContOutcome.normal).1 ⟨("email", false), by decide, rfl⟩
  exact ⟨h.1, h.2.2.2 ("email", false) (by decide) rfl, h.2.2.1⟩

end MainEntry
